import Mathlib

/-!
# Verification of the BudgetLens matching-and-learning engine

Shallow embedding of the core engine of the BudgetLens repository
(`backend/app/services/categorization.py`, `transfer.py`,
`transfer_learning.py`, `vendor_intelligence.py`) together with proofs
about the embedded definitions.

Strings are modelled as `List Char`; Python `Decimal`/`float` amounts and
scores are modelled as `ℚ`; database rows are Lean structures and the
SQLAlchemy session is explicit state passing.  The external `rapidfuzz`
similarity library is modelled as an explicit function parameter `sim`.
-/

/- Batteries marks the `Rat` field operations `@[irreducible]`; restore
reducibility locally so that concrete score computations can be settled by
`decide` (the kernel is unaffected by reducibility attributes). -/
attribute [local semireducible] Rat.add Rat.sub Rat.mul Rat.inv Rat.ofScientific

namespace BudgetLens

/-! ## Character classes (ASCII fragments of Python's `re` classes) -/

/-- Uppercase ASCII letter, the class `[A-Z]`. -/
def isUpperAlpha (c : Char) : Bool := 'A' ≤ c && c ≤ 'Z'

/-- ASCII digit; models Python's `\d` for the inputs of interest. -/
def isDigitChar (c : Char) : Bool := '0' ≤ c && c ≤ '9'

/-- Python's `\s`: space, tab, newline, carriage return, form feed, vertical tab. -/
def isSpaceChar (c : Char) : Bool :=
  c = ' ' || c = '\t' || c = '\n' || c = '\x0d' || c = '\x0c' || c = '\x0b'

/-- `str.upper` restricted to ASCII (non-ASCII letters are later stripped
by the `[^A-Z\s]` substitution in `normalize_vendor`, so ASCII casing is
the behaviour-relevant part). -/
def toUpperChar (c : Char) : Char :=
  if 'a' ≤ c && c ≤ 'z' then Char.ofNat (c.toNat - 32) else c

/-- `str.lower` restricted to ASCII. -/
def toLowerChar (c : Char) : Char :=
  if 'A' ≤ c && c ≤ 'Z' then Char.ofNat (c.toNat + 32) else c

/-! ## Maximal-run splitting

`splitRuns p l` is the list of maximal nonempty runs of characters
satisfying `p`, in order, with the separating characters dropped.  It
models both Python's `str.split()` (with `p` = "not whitespace") and
`re.findall(r'[A-Z]+', s)` (with `p` = `isUpperAlpha`). -/

def splitRunsAux (p : Char → Bool) : List Char → List Char → List (List Char)
  | cur, [] => if cur.isEmpty then [] else [cur.reverse]
  | cur, c :: cs =>
    if p c then splitRunsAux p (c :: cur) cs
    else if cur.isEmpty then splitRunsAux p [] cs
    else cur.reverse :: splitRunsAux p [] cs

def splitRuns (p : Char → Bool) (l : List Char) : List (List Char) :=
  splitRunsAux p [] l

theorem splitRunsAux_all (p : Char → Bool) :
    ∀ (l cur : List Char), (∀ c ∈ l, p c = true) →
      splitRunsAux p cur l =
        if (cur.reverse ++ l).isEmpty then [] else [cur.reverse ++ l] := by
  intro l
  induction l with
  | nil =>
    intro cur _
    simp only [splitRunsAux, List.append_nil]
    cases cur <;> simp
  | cons d cs ih =>
    intro cur hall
    have hd : p d = true := hall d (List.mem_cons_self d cs)
    rw [splitRunsAux, if_pos hd, ih (d :: cur) (fun c hc => hall c (List.mem_cons_of_mem d hc))]
    simp

/-- A nonempty list all of whose characters satisfy `p` is a single run. -/
theorem splitRuns_all (p : Char → Bool) (l : List Char)
    (hne : l ≠ []) (hall : ∀ c ∈ l, p c = true) : splitRuns p l = [l] := by
  rw [splitRuns, splitRunsAux_all p l [] hall]
  simp [hne]

theorem splitRunsAux_chars (p : Char → Bool) :
    ∀ (l cur : List Char), (∀ c ∈ cur, p c = true) →
      ∀ t ∈ splitRunsAux p cur l, ∀ c ∈ t, p c = true ∧ (c ∈ cur ∨ c ∈ l) := by
  intro l
  induction l with
  | nil =>
    intro cur hcur t ht c hc
    simp only [splitRunsAux] at ht
    by_cases h : cur.isEmpty
    · simp [h] at ht
    · rw [if_neg h] at ht
      simp only [List.mem_singleton] at ht
      subst ht
      have hmem : c ∈ cur := List.mem_reverse.mp hc
      exact ⟨hcur c hmem, Or.inl hmem⟩
  | cons d cs ih =>
    intro cur hcur t ht c hc
    rw [splitRunsAux] at ht
    by_cases hd : p d = true
    · rw [if_pos hd] at ht
      have hcur' : ∀ e ∈ d :: cur, p e = true := by
        intro e he
        rcases List.mem_cons.mp he with h | h
        · exact h ▸ hd
        · exact hcur e h
      obtain ⟨hp, hmem⟩ := ih (d :: cur) hcur' t ht c hc
      refine ⟨hp, ?_⟩
      rcases hmem with h | h
      · rcases List.mem_cons.mp h with h' | h'
        · exact Or.inr (h' ▸ List.mem_cons_self d cs)
        · exact Or.inl h'
      · exact Or.inr (List.mem_cons_of_mem d h)
    · rw [if_neg hd] at ht
      by_cases hce : cur.isEmpty
      · rw [if_pos hce] at ht
        obtain ⟨hp, hmem⟩ := ih [] (by simp) t ht c hc
        rcases hmem with h | h
        · simp at h
        · exact ⟨hp, Or.inr (List.mem_cons_of_mem d h)⟩
      · rw [if_neg hce] at ht
        rcases List.mem_cons.mp ht with h | h
        · subst h
          have hmem : c ∈ cur := List.mem_reverse.mp hc
          exact ⟨hcur c hmem, Or.inl hmem⟩
        · obtain ⟨hp, hmem⟩ := ih [] (by simp) t h c hc
          rcases hmem with h' | h'
          · simp at h'
          · exact ⟨hp, Or.inr (List.mem_cons_of_mem d h')⟩

/-- Every character of every run satisfies `p` and occurs in the input. -/
theorem splitRuns_chars (p : Char → Bool) :
    ∀ (l : List Char), ∀ t ∈ splitRuns p l, ∀ c ∈ t, p c = true ∧ c ∈ l := by
  intro l t ht c hc
  obtain ⟨hp, hmem⟩ := splitRunsAux_chars p l [] (by simp) t ht c hc
  rcases hmem with h | h
  · simp at h
  · exact ⟨hp, h⟩

/-! ## Normalizer (`categorization.py`: `extract_vendor_from_description`,
`normalize_vendor`, `_generate_vendor_name`) -/

/-- Python `str.strip()` (ASCII whitespace). -/
def stripChars (l : List Char) : List Char :=
  ((l.dropWhile isSpaceChar).reverse.dropWhile isSpaceChar).reverse

/-- `extract_vendor_from_description`: if the description contains a comma,
take everything after the first comma (`split(',', 1)`), stripped; use it
when its length exceeds 3, else the whole stripped description. -/
def extract_vendor_from_description (d : List Char) : List Char :=
  if ',' ∈ d then
    let vendor_part := stripChars ((d.dropWhile (· != ',')).drop 1)
    if 3 < vendor_part.length then vendor_part else stripChars d
  else stripChars d

/-- The `location_words` list removed by `normalize_vendor`
(each removed via `re.sub(rf'\b{word}\b', '', ...)`). -/
def locationWords : List (List Char) :=
  ["STR".toList, "STRASSE".toList, "STREET".toList, "ST".toList,
   "AVENUE".toList, "AVE".toList, "PLATZ".toList, "GASSE".toList]

/-- The `main_words` accumulation loop of `normalize_vendor`:
append each word of length ≥ 3, stopping as soon as the joined
accumulator reaches 8 characters. -/
def mainWordsLoop : List (List Char) → List (List Char) → List (List Char)
  | [], acc => acc
  | w :: rest, acc =>
    let acc' := if 3 ≤ w.length then acc ++ [w] else acc
    if 8 ≤ acc'.flatten.length then acc' else mainWordsLoop rest acc'

/-- `normalize_vendor`.  At the point where the `\b{word}\b` substitutions
run, the string contains only `[A-Z]` and whitespace, so every `\b`
boundary falls at whitespace or a string end and the sequence of
substitutions is exactly "drop the whitespace-separated tokens equal to a
location word"; the following `re.sub(r'\s+', '', ...)` then deletes all
whitespace, i.e. joins the kept tokens.  `re.findall(r'[A-Z]{2,}', ...)`
is the maximal `[A-Z]`-runs of length ≥ 2. -/
def normalize_vendor (vendor_text : List Char) : List Char :=
  if vendor_text = [] then []
  else
    let up := vendor_text.map toUpperChar
    let noDigits := up.filter fun c => !isDigitChar c
    let stripped := noDigits.filter fun c => isUpperAlpha c || isSpaceChar c
    let toks := splitRuns (fun c => !isSpaceChar c) stripped
    let kept := toks.filter fun t => decide (t ∉ locationWords)
    let collapsed := kept.flatten
    if 4 < collapsed.length then
      let ws := (splitRuns isUpperAlpha up).filter fun w => 2 ≤ w.length
      if ws.isEmpty then collapsed
      else
        let main := mainWordsLoop (ws.take 3) []
        if main.isEmpty then collapsed else main.flatten
    else collapsed

/-- `str.title()` for a single ASCII word: first char upper, rest lower. -/
def titleWord : List Char → List Char
  | [] => []
  | c :: cs => toUpperChar c :: cs.map toLowerChar

/-- ASCII letter (either case), Python's `[A-Za-z]`. -/
def isAlphaChar (c : Char) : Bool := isUpperAlpha c || ('a' ≤ c && c ≤ 'z')

/-- `_generate_vendor_name`: take the first 1–2 words of length ≥ 3 from
the letter-runs of the extracted vendor text, title-cased, falling back to
the first word, or `"Unknown Vendor"` when there are no words at all. -/
def generate_vendor_name (vendor_text : List Char) : List Char :=
  let words := splitRuns isAlphaChar vendor_text
  match words with
  | [] => "Unknown Vendor".toList
  | w0 :: _ =>
    let name_parts := (words.take 2).filter fun w => 3 ≤ w.length
    let name_parts := if name_parts.isEmpty then [titleWord w0] else name_parts.map titleWord
    (name_parts.intersperse [' ']).flatten

/-! ### Facts about `normalize_vendor` -/

theorem toUpperChar_fix {c : Char} (h : isUpperAlpha c = true) : toUpperChar c = c := by
  simp only [isUpperAlpha, Bool.and_eq_true, decide_eq_true_eq] at h
  have : ¬('a' ≤ c && c ≤ 'z') = true := by
    simp only [Bool.and_eq_true, decide_eq_true_eq, not_and_or]
    left
    intro hc
    exact absurd (le_trans hc h.2) (by decide)
  simp [toUpperChar, this]

theorem upper_not_digit {c : Char} (h : isUpperAlpha c = true) : isDigitChar c = false := by
  simp only [isUpperAlpha, Bool.and_eq_true, decide_eq_true_eq] at h
  have h9 : ¬ c ≤ '9' := fun hc => absurd (le_trans h.1 hc) (by decide)
  simp [isDigitChar, h9]

theorem upper_not_space {c : Char} (h : isUpperAlpha c = true) : isSpaceChar c = false := by
  simp only [isUpperAlpha, Bool.and_eq_true, decide_eq_true_eq] at h
  have hlt : ∀ d : Char, d < 'A' → decide (c = d) = false := by
    intro d hd
    simp only [decide_eq_false_iff_not]
    intro hc
    subst hc
    exact absurd h.1 (not_le.mpr hd)
  simp only [isSpaceChar]
  rw [hlt ' ' (by decide), hlt '\t' (by decide), hlt '\n' (by decide),
      hlt '\x0d' (by decide), hlt '\x0c' (by decide), hlt '\x0b' (by decide)]
  rfl

/-- Every element of the `main_words` loop output comes from the
accumulator or the word list. -/
theorem mainWordsLoop_mem :
    ∀ (l acc : List (List Char)) (w : List Char),
      w ∈ mainWordsLoop l acc → w ∈ acc ∨ w ∈ l := by
  intro l
  induction l with
  | nil => intro acc w hw; exact Or.inl hw
  | cons x rest ih =>
    intro acc w hw
    rw [mainWordsLoop] at hw
    by_cases h3 : 3 ≤ x.length
    · simp only [if_pos h3] at hw
      by_cases h8 : 8 ≤ (acc ++ [x]).flatten.length
      · rw [if_pos h8] at hw
        rcases List.mem_append.mp hw with h | h
        · exact Or.inl h
        · simp only [List.mem_singleton] at h
          exact Or.inr (h ▸ List.mem_cons_self x rest)
      · rw [if_neg h8] at hw
        rcases ih _ _ hw with h | h
        · rcases List.mem_append.mp h with h' | h'
          · exact Or.inl h'
          · simp only [List.mem_singleton] at h'
            exact Or.inr (h' ▸ List.mem_cons_self x rest)
        · exact Or.inr (List.mem_cons_of_mem x h)
    · simp only [if_neg h3] at hw
      by_cases h8 : 8 ≤ acc.flatten.length
      · rw [if_pos h8] at hw
        exact Or.inl hw
      · rw [if_neg h8] at hw
        rcases ih _ _ hw with h | h
        · exact Or.inl h
        · exact Or.inr (List.mem_cons_of_mem x h)

/-- Every character of `normalize_vendor`'s output is an uppercase ASCII letter. -/
theorem normalize_vendor_upperAlpha (x : List Char) :
    ∀ c ∈ normalize_vendor x, isUpperAlpha c = true := by
  intro c hc
  unfold normalize_vendor at hc
  by_cases hx : x = []
  · simp [hx] at hc
  rw [if_neg hx] at hc
  set up := x.map toUpperChar with hup
  set stripped := (up.filter fun c => !isDigitChar c).filter
      (fun c => isUpperAlpha c || isSpaceChar c) with hstripped
  have hcollapsed : ∀ d ∈ (((splitRuns (fun c => !isSpaceChar c) stripped).filter
      fun t => decide (t ∉ locationWords)).flatten), isUpperAlpha d = true := by
    intro d hd
    obtain ⟨t, ht, hdt⟩ := List.mem_flatten.mp hd
    have ht' := (List.mem_filter.mp ht).1
    obtain ⟨hp, hmem⟩ := splitRuns_chars _ stripped t ht' d hdt
    have := (List.mem_filter.mp hmem).2
    rcases Bool.or_eq_true _ _ |>.mp this with h | h
    · exact h
    · rw [Bool.not_eq_true'] at hp
      rw [hp] at h
      exact absurd h (by decide)
  have hws : ∀ w ∈ ((splitRuns isUpperAlpha up).filter fun w => 2 ≤ w.length),
      ∀ d ∈ w, isUpperAlpha d = true := by
    intro w hw d hd
    exact (splitRuns_chars _ up w (List.mem_filter.mp hw).1 d hd).1
  by_cases h4 : 4 < (((splitRuns (fun c => !isSpaceChar c) stripped).filter
      fun t => decide (t ∉ locationWords)).flatten).length
  · rw [if_pos h4] at hc
    by_cases hwsE : ((splitRuns isUpperAlpha up).filter fun w => 2 ≤ w.length).isEmpty
    · rw [if_pos hwsE] at hc
      exact hcollapsed c hc
    · rw [if_neg hwsE] at hc
      by_cases hmain : (mainWordsLoop
          (((splitRuns isUpperAlpha up).filter fun w => 2 ≤ w.length).take 3) []).isEmpty
      · rw [if_pos hmain] at hc
        exact hcollapsed c hc
      · rw [if_neg hmain] at hc
        obtain ⟨t, ht, hct⟩ := List.mem_flatten.mp hc
        rcases mainWordsLoop_mem _ _ _ ht with h | h
        · simp at h
        · exact hws t (List.take_subset 3 _ h) c hct
  · rw [if_neg h4] at hc
    exact hcollapsed c hc

/-- A nonempty all-uppercase-letter string that is not itself a location
word is a fixed point of `normalize_vendor`. -/
theorem normalize_vendor_fixed (y : List Char)
    (hall : ∀ c ∈ y, isUpperAlpha c = true) (hloc : y ∉ locationWords) :
    normalize_vendor y = y := by
  by_cases hy : y = []
  · simp [hy, normalize_vendor]
  have hup : y.map toUpperChar = y := by
    conv_rhs => rw [← List.map_id y]
    exact List.map_congr_left fun c hc => toUpperChar_fix (hall c hc)
  have hnd : y.filter (fun c => !isDigitChar c) = y :=
    List.filter_eq_self.mpr fun c hc => by rw [upper_not_digit (hall c hc)]; rfl
  have hst : y.filter (fun c => isUpperAlpha c || isSpaceChar c) = y :=
    List.filter_eq_self.mpr fun c hc => by rw [hall c hc, Bool.true_or]
  have htoks : splitRuns (fun c => !isSpaceChar c) y = [y] :=
    splitRuns_all _ y hy fun c hc => by rw [upper_not_space (hall c hc)]; rfl
  have hkept : [y].filter (fun t => decide (t ∉ locationWords)) = [y] := by
    simp [List.filter, hloc]
  unfold normalize_vendor
  rw [if_neg hy]
  simp only [hup, hnd, hst, htoks, hkept, List.flatten_cons, List.flatten_nil,
    List.append_nil]
  by_cases h4 : 4 < y.length
  · rw [if_pos h4, splitRuns_all isUpperAlpha y hy hall]
    have h2 : [y].filter (fun w => decide (2 ≤ w.length)) = [y] := by
      have h : 2 ≤ y.length := by omega
      simp [List.filter, h]
    rw [h2]
    have h3 : 3 ≤ y.length := by omega
    simp only [List.isEmpty_cons, Bool.false_eq_true, if_false, List.take_succ_cons,
      List.take_nil, mainWordsLoop, if_pos h3, List.nil_append, List.flatten_cons,
      List.flatten_nil, List.append_nil]
    by_cases h8 : 8 ≤ y.length
    · simp [if_pos h8]
    · simp [if_neg h8, mainWordsLoop]
  · rw [if_neg h4]

/-!
### Claim C10 — every `normalize_vendor` output is uppercase-ASCII-only
-/

/-- C10: for every input string, `normalize_vendor` returns a string
consisting only of uppercase ASCII letters `A`–`Z` (possibly empty): no
digits, whitespace, or punctuation appear in a canonical vendor pattern. -/
theorem C10_normalize_output_upper_alpha_only (x : List Char) :
    (normalize_vendor x).all isUpperAlpha = true :=
  List.all_eq_true.mpr fun c hc => normalize_vendor_upperAlpha x c hc

/-!
### Claim C7 — idempotence of `normalize_vendor`

The claim is false as stated: `normalize_vendor "s t" = "ST"`, and the
second application removes `"ST"` as a location word (`\bST\b`), giving
`""`.  Idempotence does hold whenever the first application's result is
not itself one of the eight location noise words.
-/

/-- C7 counterexample: `normalize` is not idempotent on `"s t"`:
`normalize "s t" = "ST"` but `normalize (normalize "s t") = ""`. -/
theorem C7_counterexample_normalize_not_idempotent :
    normalize_vendor (normalize_vendor ("s t".toList)) ≠
      normalize_vendor ("s t".toList) := by decide

/-- C7 (amended): `normalize_vendor` is idempotent on every input whose
normalized image is not one of the location noise words
STR/STRASSE/STREET/ST/AVENUE/AVE/PLATZ/GASSE; when the image is such a
word, the second application erases it. -/
theorem C7_normalize_idempotent_unless_location_word (x : List Char)
    (h : normalize_vendor x ∉ locationWords) :
    normalize_vendor (normalize_vendor x) = normalize_vendor x :=
  normalize_vendor_fixed (normalize_vendor x) (normalize_vendor_upperAlpha x) h

/-- Witness for C7 at the spec's own example input. -/
theorem C7_witness :
    normalize_vendor ("Lidl Zuerich 0800 Zuerich".toList) ∉ locationWords ∧
      normalize_vendor (normalize_vendor ("Lidl Zuerich 0800 Zuerich".toList)) =
        normalize_vendor ("Lidl Zuerich 0800 Zuerich".toList) :=
  ⟨by decide, C7_normalize_idempotent_unless_location_word _ (by decide)⟩

/-! ## N-gram Analyzer (`vendor_intelligence.py`: `generate_vendor_ngrams`,
`_calculate_ngram_confidence`, `_classify_pattern_type`) -/

/-- Python's `\w` for the inputs of interest: ASCII alphanumerics,
underscore, and non-ASCII codepoints (which cover the umlaut letters the
repository's data contains). -/
def isWordChar (c : Char) : Bool :=
  isAlphaChar c || isDigitChar c || c = '_' || 0x80 ≤ c.toNat

/-- `self.location_noise` of `VendorIntelligenceService` (a Python set;
duplicate literals `'west'`/`'center'` occur once here). -/
def locationNoise : List (List Char) :=
  ["street".toList, "str".toList, "strasse".toList, "avenue".toList, "ave".toList,
   "road".toList, "rd".toList, "platz".toList, "gasse".toList,
   "hauptbahnhof".toList, "bahnhof".toList, "station".toList, "airport".toList,
   "flughafen".toList, "zentrum".toList, "center".toList,
   "north".toList, "south".toList, "east".toList, "west".toList,
   "nord".toList, "süd".toList, "ost".toList,
   "city".toList, "stadt".toList, "downtown".toList, "uptown".toList,
   "mall".toList, "shopping".toList]

/-- `self.business_types` of `VendorIntelligenceService`, in dict insertion
order. -/
def businessTypes : List (List Char × List (List Char)) :=
  [("retail".toList, ["shop".toList, "store".toList, "market".toList, "mart".toList,
      "retail".toList]),
   ("food".toList, ["restaurant".toList, "cafe".toList, "bistro".toList, "pizza".toList,
      "burger".toList, "kebab".toList, "sushi".toList]),
   ("transport".toList, ["bus".toList, "train".toList, "taxi".toList, "uber".toList,
      "lyft".toList, "transport".toList, "metro".toList]),
   ("fuel".toList, ["shell".toList, "bp".toList, "esso".toList, "texaco".toList,
      "mobil".toList, "tankstelle".toList, "gas".toList]),
   ("bank".toList, ["bank".toList, "atm".toList, "sparkasse".toList, "credit".toList,
      "debit".toList]),
   ("pharmacy".toList, ["pharmacy".toList, "apotheke".toList, "medical".toList,
      "drogerie".toList]),
   ("telecom".toList, ["telekom".toList, "vodafone".toList, "orange".toList,
      "swisscom".toList])]

/-- `_calculate_ngram_confidence(words, position, total_words, original_text)`
(the last two arguments are unused by the Python body beyond `position`). -/
def calculate_ngram_confidence (words : List (List Char)) (position : ℕ) : ℚ :=
  let base₀ : ℚ := 0.5
  let base₁ := if position = 0 then base₀ + 0.3 else base₀
  let base₂ := base₁ + min ((words.length : ℚ) * 0.1) 0.3
  let nonLocation : ℚ :=
    0.1 * ((words.filter fun w => decide (w.map toLowerChar ∉ locationNoise)).length : ℚ)
  let base₃ := base₂ + min nonLocation 0.2
  let business : ℚ :=
    0.1 * ((words.filter fun w =>
      businessTypes.any fun bt => (bt.2).contains (w.map toLowerChar)).length : ℚ)
  let base₄ := base₃ + min business 0.2
  let base₅ :=
    if words.length = 1 ∧ (words.headD []).length < 4 ∧ 0 < position
    then base₄ - 0.2 else base₄
  let base₆ :=
    if words.all fun w => decide (w.map toLowerChar ∈ locationNoise)
    then base₅ - 0.4 else base₅
  max 0 (min 1 base₆)

/-- Python's `needle in haystack` substring containment. -/
def isSubstring (needle haystack : List Char) : Bool :=
  (List.range (haystack.length + 1)).any fun i =>
    List.isPrefixOf needle (haystack.drop i)

/-- `_classify_pattern_type(words)`. -/
def classify_pattern_type (words : List (List Char)) : List Char :=
  let word_str := ((words.intersperse [' ']).flatten).map toLowerChar
  match businessTypes.find? fun bt => (bt.2).any fun kw => isSubstring kw word_str with
  | some bt => "business_".toList ++ bt.1
  | none =>
    if words.any fun w => decide (w.map toLowerChar ∈ locationNoise) then
      "location".toList
    else if words.length = 1 ∧ 4 ≤ (words.headD []).length then
      "brand_candidate".toList
    else if 1 < words.length then
      "composite_brand".toList
    else
      "generic".toList

/-- One entry of the list returned by `generate_vendor_ngrams`. -/
structure Ngram where
  pattern : List Char
  confidence : ℚ
  type : List Char
  length : ℕ
  position : ℕ
  words : List (List Char)
deriving DecidableEq, Repr

/-- Stable insertion preserving earlier-inserted elements with
greater-or-equal confidence before the new one; folding it from the left
models Python's stable `list.sort(key=confidence, reverse=True)`. -/
def insertByConfDesc (x : Ngram) : List Ngram → List Ngram
  | [] => [x]
  | y :: ys => if x.confidence ≤ y.confidence then y :: insertByConfDesc x ys
               else x :: y :: ys

/-- Python's stable descending sort by the `confidence` key. -/
def sortByConfDesc (l : List Ngram) : List Ngram :=
  l.foldl (fun acc x => insertByConfDesc x acc) []

/-- `generate_vendor_ngrams(vendor_text, min_length=2, max_length=4)`:
clean and lowercase (`re.sub(r'[^\w\s]', ' ', ...)` then `split()`),
keep words of length ≥ 2, emit every window of `n` words for
`n ∈ range(min_length, min(len(words)+1, max_length+1))`, score and
classify each, then stable-sort by confidence descending. -/
def generate_vendor_ngrams (vendor_text : List Char)
    (min_length : ℕ := 2) (max_length : ℕ := 4) : List Ngram :=
  if vendor_text = [] then []
  else
    let cleaned := (vendor_text.map toLowerChar).map fun c =>
      if isWordChar c || isSpaceChar c then c else ' '
    let words := (splitRuns (fun c => !isSpaceChar c) cleaned).filter fun w => 2 ≤ w.length
    if words = [] then []
    else
      let upper := min (words.length + 1) (max_length + 1)
      let ngrams :=
        ((List.range' min_length (upper - min_length)).map fun n =>
          (List.range (words.length - n + 1)).map fun i =>
            let gram := (words.drop i).take n
            { pattern := (gram.intersperse [' ']).flatten
              confidence := calculate_ngram_confidence gram i
              type := classify_pattern_type gram
              length := n
              position := i
              words := gram : Ngram }).flatten
      sortByConfDesc ngrams

/-!
### Claim C8 — top n-gram for `"kkiosk zürich hauptbahnhof"`

The claim (and the docstring of `generate_vendor_ngrams` itself, which
lists the single words `["kkiosk", "zürich", "hauptbahnhof"]` for this very
input) requires windows of word-length 1–4, but the code's default
parameters are `min_length=2, max_length=4`: with the defaults no 1-gram is
generated at all, so `"kkiosk"` is not in the output (the top entry is the
2-gram `"kkiosk zürich"`).  With `min_length=1` — what the docstring
describes — `"kkiosk"` is the top-ranked n-gram, classified
`brand_candidate`, above `"hauptbahnhof"`.
-/

/-- C8: at the failing input `"kkiosk zürich hauptbahnhof"`, the default
parameters produce no `"kkiosk"` n-gram at all (contradicting the claim and
the function's own docstring), while `min_length = 1` produces `"kkiosk"`
as the top-ranked `brand_candidate`, ranked above `"hauptbahnhof"`. -/
theorem C8_kkiosk_default_params_code_bug :
    (¬ ∃ g ∈ generate_vendor_ngrams "kkiosk zürich hauptbahnhof".toList,
        g.pattern = "kkiosk".toList) ∧
      ((generate_vendor_ngrams "kkiosk zürich hauptbahnhof".toList).head?.map
          Ngram.pattern = some "kkiosk zürich".toList) ∧
      ((generate_vendor_ngrams "kkiosk zürich hauptbahnhof".toList 1 4).head?.map
          (fun g => (g.pattern, g.type, g.confidence)) =
        some ("kkiosk".toList, "brand_candidate".toList, 1)) ∧
      (∀ g ∈ generate_vendor_ngrams "kkiosk zürich hauptbahnhof".toList 1 4,
        g.pattern = "hauptbahnhof".toList → g.confidence < 1) := by decide

/-! ## Data model (`db/models.py`), restricted to the engine-relevant columns -/

inductive AccountType
  | checking | savings | investment | credit_card | loan | other
deriving DecidableEq, Repr

inductive CategoryType
  | income | expense | saving | manual_review | transfer
deriving DecidableEq, Repr

structure Transaction where
  id : ℕ
  date : ℤ
  amount : ℚ
  description : List Char
  account_id : Option ℕ := none
  vendor_id : Option ℕ := none
  category_id : Option ℕ := none
  is_transfer : Bool := false
  confidence_score : Option ℚ := none
  needs_review : Bool := false
deriving DecidableEq, Repr

structure Category where
  id : ℕ
  name : List Char
  category_type : CategoryType
  allow_auto_learning : Bool := true
deriving DecidableEq, Repr

structure Vendor where
  id : ℕ
  name : List Char
  patterns : List (List Char)
  default_category_id : Option ℕ := none
  confidence_threshold : ℚ := 0.8
  allow_auto_learning : Bool := true
deriving DecidableEq, Repr

structure Transfer where
  from_account_id : Option ℕ
  to_account_id : Option ℕ
  from_transaction_id : Option ℕ
  to_transaction_id : Option ℕ
  amount : ℚ
  date : ℤ
  description : List Char
  is_confirmed : Bool
  detection_method : List Char
  confidence_score : Option ℚ := none
deriving DecidableEq, Repr

structure TransferPattern where
  id : ℕ
  pattern_name : List Char
  from_account_pattern : List Char
  to_account_pattern : List Char
  description_pattern : List Char
  typical_amount : Option ℚ
  amount_tolerance : ℚ := 0.05
  max_days_between : ℤ := 3
  confidence_threshold : ℚ := 0.8
  auto_confirm : Bool := false
  times_matched : ℕ := 0
  is_active : Bool := true
deriving DecidableEq, Repr

/-- The external account table, as consulted by `_calculate_confidence`:
account id → account type (`none` models a failed lookup). -/
def AccountTypes : Type := ℕ → Option AccountType

/-- Similarity oracle modelling the external `rapidfuzz` library's
`fuzz.ratio(a, b) / 100.0`. -/
def Sim : Type := List Char → List Char → ℚ

/-! ## Transfer settings (`transfer.py`: `get_transfer_settings`) -/

structure TransferRule where
  name : List Char
  pattern : List Char
  enabled : Bool
  auto_confirm : Bool
  allow_fees : Bool
  max_fee_tolerance : ℚ
  description : List Char
deriving DecidableEq, Repr

structure TransferSettings where
  days_lookback : ℕ
  amount_tolerance : ℚ
  percentage_tolerance : ℚ
  confidence_threshold : ℚ
  enable_auto_matching : Bool
  rules : List TransferRule
deriving DecidableEq, Repr

/-- `get_transfer_settings`: the defaults returned for every user. -/
def get_transfer_settings : TransferSettings :=
  { days_lookback := 7
    amount_tolerance := 0.50
    percentage_tolerance := 0.02
    confidence_threshold := 0.85
    enable_auto_matching := true
    rules :=
      [{ name := "Personal Name".toList, pattern := [], enabled := true,
         auto_confirm := true, allow_fees := false, max_fee_tolerance := 0,
         description := "Transfers containing your name".toList },
       { name := "Revolut".toList, pattern := "REVOLUT".toList, enabled := true,
         auto_confirm := true, allow_fees := true, max_fee_tolerance := 5.00,
         description := "Revolut transfers (may include fees)".toList }] }

/-! ## Transfer Pair Detector (`transfer.py`) -/

/-- `_is_potential_transfer_pair`: opposite signs, distinct non-null
accounts, within 7 days, and the amount-difference screen. -/
def is_potential_transfer_pair (tx1 tx2 : Transaction) : Bool :=
  if !((decide (0 < tx1.amount) && decide (tx2.amount < 0)) ||
       (decide (tx1.amount < 0) && decide (0 < tx2.amount))) then false
  else
    match tx1.account_id, tx2.account_id with
    | some a1, some a2 =>
      if a1 = a2 then false
      else if 7 < (tx1.date - tx2.date).natAbs then false
      else
        let amount_diff := |(|tx1.amount| - |tx2.amount|)|
        let max_amount := max |tx1.amount| |tx2.amount|
        if 0 < max_amount then
          let percentage_diff := amount_diff / max_amount
          if amount_diff ≤ 2 || percentage_diff ≤ 0.05 then true
          else if 0.20 < percentage_diff then false
          else true
        else true
    | _, _ => false

/-- The `transfer_keywords` list of `_calculate_confidence`. -/
def transferKeywords : List (List Char) :=
  ["transfer".toList, "überweisung".toList, "virement".toList,
   "internal".toList, "zwischen".toList]

/-- The `type_pairs` account-type bonus list of `_calculate_confidence`. -/
def typePairs : List (AccountType × AccountType) :=
  [(.checking, .savings), (.savings, .checking),
   (.checking, .investment), (.investment, .checking)]

/-- `_calculate_confidence`: additive score over amount closeness, date
proximity, description keywords/common words and account-type pairing,
clamped to `[0, 1]` by the final `max(0.0, min(confidence, 1.0))`. -/
def calculate_confidence (accts : AccountTypes) (tx1 tx2 : Transaction) : ℚ :=
  let amount_diff := |(|tx1.amount| - |tx2.amount|)|
  let max_amount := max |tx1.amount| |tx2.amount|
  let c₁ : ℚ :=
    if 0 < max_amount then
      if amount_diff = 0 then 0.4
      else if amount_diff / max_amount ≤ 0.01 then 0.35
      else if amount_diff / max_amount ≤ 0.05 then 0.25
      else 0.1
    else 0
  let date_diff := (tx1.date - tx2.date).natAbs
  let c₂ :=
    if date_diff = 0 then c₁ + 0.3
    else if date_diff = 1 then c₁ + 0.25
    else if date_diff ≤ 3 then c₁ + 0.15
    else c₁ + 0.05
  let desc1 := tx1.description.map toLowerChar
  let desc2 := tx2.description.map toLowerChar
  let c₃ :=
    if transferKeywords.any (fun k => isSubstring k desc1 || isSubstring k desc2)
    then c₂ + 0.15 else c₂
  let c₄ :=
    if desc1 ≠ [] ∧ desc2 ≠ [] then
      let words1 := splitRuns (fun c => !isSpaceChar c) desc1
      let words2 := splitRuns (fun c => !isSpaceChar c) desc2
      if 2 ≤ (words1.dedup.filter fun w => w ∈ words2).length then c₃ + 0.05 else c₃
    else c₃
  let c₅ :=
    match tx1.account_id.bind accts, tx2.account_id.bind accts with
    | some t1, some t2 =>
      if typePairs.contains (t1, t2) || typePairs.contains (t2, t1)
      then c₄ + 0.1 else c₄
    | _, _ => c₄
  max 0 (min c₅ 1)

/-- `_create_transfer_from_transactions`: the `Transfer` row it builds. -/
def create_transfer_from_transactions (from_tx to_tx : Transaction) : Transfer :=
  { from_account_id := from_tx.account_id
    to_account_id := to_tx.account_id
    from_transaction_id := some from_tx.id
    to_transaction_id := some to_tx.id
    amount := |from_tx.amount|
    date := from_tx.date
    description := "Transfer: ".toList ++ from_tx.description
    is_confirmed := true
    detection_method := "auto".toList }

/-- Inner loop of `detect_potential_transfers_enhanced`: the first
unclaimed `tx2` after `tx1` that passes the pair filter with confidence
≥ 0.5 is selected (`break`). -/
def findPartner (accts : AccountTypes) (tx1 : Transaction) :
    List Transaction → List ℕ → Option (Transaction × ℚ)
  | [], _ => none
  | tx2 :: rest, claimed =>
    if tx2.id ∈ claimed then findPartner accts tx1 rest claimed
    else if is_potential_transfer_pair tx1 tx2 then
      let conf := calculate_confidence accts tx1 tx2
      if 0.5 ≤ conf then some (tx2, conf)
      else findPartner accts tx1 rest claimed
    else findPartner accts tx1 rest claimed

/-- A detected pair: from-transaction, to-transaction, confidence. -/
structure DetectedPair where
  fromTx : Transaction
  toTx : Transaction
  confidence : ℚ
deriving DecidableEq, Repr

structure DetectResult where
  potential_transfers : List DetectedPair
  auto_matched : List DetectedPair
deriving DecidableEq, Repr

/-- Outer loop of `detect_potential_transfers_enhanced`: greedy first-match
pair claiming; pairs with confidence ≥ 0.9 are auto-matched (a `Transfer`
is created via `create_transfer_from_transactions`). -/
def detectLoop (accts : AccountTypes) :
    List Transaction → List ℕ → DetectResult
  | [], _ => ⟨[], []⟩
  | tx1 :: rest, claimed =>
    if tx1.id ∈ claimed then detectLoop accts rest claimed
    else
      match findPartner accts tx1 rest claimed with
      | none => detectLoop accts rest claimed
      | some (tx2, conf) =>
        let fromTx := if tx1.amount < 0 then tx1 else tx2
        let toTx := if tx1.amount < 0 then tx2 else tx1
        let r := detectLoop accts rest (tx1.id :: tx2.id :: claimed)
        { potential_transfers := ⟨fromTx, toTx, conf⟩ :: r.potential_transfers
          auto_matched :=
            if 0.9 ≤ conf then ⟨fromTx, toTx, conf⟩ :: r.auto_matched
            else r.auto_matched }

/-- `detect_potential_transfers_enhanced`, over the queried window of
not-yet-transfer transactions. -/
def detect_potential_transfers_enhanced (accts : AccountTypes)
    (transactions : List Transaction) : DetectResult :=
  detectLoop accts transactions []

/-- `create_transfer_with_learning`: builds the `Transfer` row directly
from the two looked-up transactions — with no opposite-sign, distinct-
account, or already-a-transfer validation — and never touches either
transaction's `is_transfer` flag. -/
def create_transfer_with_learning (from_tx to_tx : Transaction)
    (description : Option (List Char)) : Transfer :=
  { from_account_id := from_tx.account_id
    to_account_id := to_tx.account_id
    from_transaction_id := some from_tx.id
    to_transaction_id := some to_tx.id
    amount := |from_tx.amount|
    date := from_tx.date
    description := description.getD ("Transfer: ".toList ++ from_tx.description)
    is_confirmed := true
    detection_method := "manual".toList
    confidence_score := some 1 }

/-! ### Facts about the detection loop -/

theorem findPartner_facts (accts : AccountTypes) (tx1 : Transaction) :
    ∀ (rest : List Transaction) (claimed : List ℕ) (tx2 : Transaction) (conf : ℚ),
      findPartner accts tx1 rest claimed = some (tx2, conf) →
      conf = calculate_confidence accts tx1 tx2 ∧ (0.5 : ℚ) ≤ conf ∧
        is_potential_transfer_pair tx1 tx2 = true := by
  intro rest
  induction rest with
  | nil => intro claimed tx2 conf h; simp [findPartner] at h
  | cons t ts ih =>
    intro claimed tx2 conf h
    rw [findPartner] at h
    by_cases hc : t.id ∈ claimed
    · rw [if_pos hc] at h
      exact ih claimed tx2 conf h
    · rw [if_neg hc] at h
      by_cases hp : is_potential_transfer_pair tx1 t = true
      · rw [if_pos hp] at h
        simp only at h
        by_cases h5 : (0.5 : ℚ) ≤ calculate_confidence accts tx1 t
        · rw [if_pos h5] at h
          injection h with h'
          injection h' with ha hb
          subst ha
          subst hb
          exact ⟨rfl, h5, hp⟩
        · rw [if_neg h5] at h
          exact ih claimed tx2 conf h
      · rw [if_neg hp] at h
        exact ih claimed tx2 conf h

theorem is_potential_transfer_pair_facts {tx1 tx2 : Transaction}
    (h : is_potential_transfer_pair tx1 tx2 = true) :
    ((tx1.amount < 0 ∧ 0 < tx2.amount) ∨ (tx2.amount < 0 ∧ 0 < tx1.amount)) ∧
      ∃ a1 a2, tx1.account_id = some a1 ∧ tx2.account_id = some a2 ∧ a1 ≠ a2 := by
  unfold is_potential_transfer_pair at h
  by_cases hs : ((decide (0 < tx1.amount) && decide (tx2.amount < 0)) ||
      (decide (tx1.amount < 0) && decide (0 < tx2.amount))) = true
  · simp only [hs, Bool.not_true, Bool.false_eq_true, if_false] at h
    refine ⟨?_, ?_⟩
    · rcases Bool.or_eq_true _ _ |>.mp hs with h' | h'
      · obtain ⟨h1, h2⟩ := Bool.and_eq_true _ _ |>.mp h'
        exact Or.inr ⟨decide_eq_true_eq.mp h2, decide_eq_true_eq.mp h1⟩
      · obtain ⟨h1, h2⟩ := Bool.and_eq_true _ _ |>.mp h'
        exact Or.inl ⟨decide_eq_true_eq.mp h1, decide_eq_true_eq.mp h2⟩
    · cases ha1 : tx1.account_id with
      | none => rw [ha1] at h; simp at h
      | some a1 =>
        cases ha2 : tx2.account_id with
        | none => rw [ha1, ha2] at h; simp at h
        | some a2 =>
          rw [ha1, ha2] at h
          simp only at h
          by_cases heq : a1 = a2
          · rw [if_pos heq] at h; simp at h
          · exact ⟨a1, a2, rfl, rfl, heq⟩
  · rw [Bool.not_eq_true] at hs
    simp only [hs, Bool.not_false, if_true] at h
    exact absurd h (by simp)

/-- Every pair auto-matched by the detection loop has confidence ≥ 0.9,
its from-transaction is the negative one and its to-transaction the
positive one, and the two sit on distinct non-null accounts. -/
theorem detectLoop_auto_facts (accts : AccountTypes) :
    ∀ (txs : List Transaction) (claimed : List ℕ),
      ∀ m ∈ (detectLoop accts txs claimed).auto_matched,
        (0.9 : ℚ) ≤ m.confidence ∧ m.fromTx.amount < 0 ∧ 0 < m.toTx.amount ∧
          m.fromTx.account_id ≠ none ∧ m.toTx.account_id ≠ none ∧
          m.fromTx.account_id ≠ m.toTx.account_id := by
  intro txs
  induction txs with
  | nil => intro claimed m hm; simp [detectLoop] at hm
  | cons tx1 rest ih =>
    intro claimed m hm
    rw [detectLoop] at hm
    by_cases hc : tx1.id ∈ claimed
    · rw [if_pos hc] at hm
      exact ih claimed m hm
    · rw [if_neg hc] at hm
      cases hfp : findPartner accts tx1 rest claimed with
      | none =>
        rw [hfp] at hm
        exact ih claimed m hm
      | some pr =>
        obtain ⟨tx2, conf⟩ := pr
        rw [hfp] at hm
        simp only at hm
        obtain ⟨hceq, h05, hpair⟩ := findPartner_facts accts tx1 rest claimed tx2 conf hfp
        obtain ⟨hsigns, a1, a2, ha1, ha2, hane⟩ := is_potential_transfer_pair_facts hpair
        by_cases h9 : (0.9 : ℚ) ≤ conf
        · rw [if_pos h9] at hm
          rcases List.mem_cons.mp hm with h | h
          · subst h
            rcases hsigns with ⟨hneg, hpos⟩ | ⟨hneg, hpos⟩
            · rw [if_pos hneg, if_pos hneg]
              refine ⟨h9, hneg, hpos, ?_, ?_, ?_⟩
              · rw [ha1]; simp
              · rw [ha2]; simp
              · rw [ha1, ha2]; simp [hane]
            · have hnotlt : ¬ tx1.amount < 0 := not_lt_of_gt hpos
              rw [if_neg hnotlt, if_neg hnotlt]
              refine ⟨h9, hneg, hpos, ?_, ?_, ?_⟩
              · rw [ha2]; simp
              · rw [ha1]; simp
              · rw [ha1, ha2]; simp [Ne.symm hane]
          · exact ih _ m h
        · rw [if_neg h9] at hm
          exact ih _ m hm

/-!
### Claim C2 — auto-confirmation requires the configured threshold

`detect_potential_transfers_enhanced` auto-matches only at hard-coded
confidence ≥ 0.9, which is above the configured global threshold 0.85 of
`get_transfer_settings` (and the heuristic path records no rule match), so
auto-confirmation never occurs below the configured threshold.
-/

/-- C2: every auto-confirmed pair of a detection run has confidence at or
above `get_transfer_settings.confidence_threshold`; in particular
auto-confirmation never happens below the configured threshold without a
rule match. -/
theorem C2_auto_confirm_requires_threshold (accts : AccountTypes)
    (transactions : List Transaction) :
    (detect_potential_transfers_enhanced accts transactions).auto_matched.all
      (fun m => decide (get_transfer_settings.confidence_threshold ≤ m.confidence)) =
      true := by
  rw [List.all_eq_true]
  intro m hm
  rw [decide_eq_true_eq]
  have h := (detectLoop_auto_facts accts transactions [] m hm).1
  calc get_transfer_settings.confidence_threshold
      = (0.85 : ℚ) := rfl
    _ ≤ (0.9 : ℚ) := by norm_num
    _ ≤ m.confidence := h

/-!
### Claim C3 — linked transactions of a created Transfer

False outside the auto-detection path.  `create_transfer_with_learning`
performs no validation at all: it links two same-account, same-sign
transactions.  `create_manual_transfer` raises on equal account ids (so
its Transfers do have distinct accounts) but never checks signs: two
positive-amount transactions on distinct accounts are linked as-is.  The
auto-detection path does guarantee the full property.
-/

/-- `create_manual_transfer`, after the two transactions are looked up:
raise on equal account ids, raise if either is already a transfer, swap
the direction when `from_tx.amount > 0 and to_tx.amount < 0`, then build
the row via `_create_transfer_from_transactions` (the swap-then-call is
written here as a branch into the two call orders; the optional pattern
learning does not affect the returned row). -/
def create_manual_transfer (from_tx to_tx : Transaction) :
    Except (List Char) Transfer :=
  if from_tx.account_id = to_tx.account_id then
    Except.error "Cannot create transfer between same account".toList
  else if from_tx.is_transfer || to_tx.is_transfer then
    Except.error "One or both transactions are already part of a transfer".toList
  else if 0 < from_tx.amount ∧ to_tx.amount < 0 then
    Except.ok (create_transfer_from_transactions to_tx from_tx)
  else
    Except.ok (create_transfer_from_transactions from_tx to_tx)

/-- C3 counterexample: `create_transfer_with_learning` produces a Transfer
whose two linked transactions are on the same account with equal positive
amounts — neither opposite-signed nor distinct-account — and
`create_manual_transfer` accepts two positive-amount transactions on
distinct accounts, linking `+5`/`+5` without an opposite-sign check. -/
theorem C3_counterexample_no_sign_or_account_validation :
    (create_transfer_with_learning
        { id := 1, date := 0, amount := 5, description := "a".toList, account_id := some 1 }
        { id := 2, date := 0, amount := 5, description := "b".toList, account_id := some 1 }
        none).from_transaction_id = some 1 ∧
    (create_transfer_with_learning
        { id := 1, date := 0, amount := 5, description := "a".toList, account_id := some 1 }
        { id := 2, date := 0, amount := 5, description := "b".toList, account_id := some 1 }
        none).from_account_id =
      (create_transfer_with_learning
        { id := 1, date := 0, amount := 5, description := "a".toList, account_id := some 1 }
        { id := 2, date := 0, amount := 5, description := "b".toList, account_id := some 1 }
        none).to_account_id ∧
    ((create_manual_transfer
        { id := 3, date := 0, amount := 5, description := "c".toList, account_id := some 1 }
        { id := 4, date := 0, amount := 5, description := "d".toList, account_id := some 2 }).toOption.map
      fun tr => (tr.from_transaction_id, tr.to_transaction_id)) =
      some (some 3, some 4) ∧
    ¬((5 : ℚ) < 0 ∧ 0 < (5 : ℚ)) := by decide

/-- C3 (amended): every Transfer produced by the auto-detection path links
a negative from-transaction and a positive to-transaction on distinct
non-null accounts, and every Transfer `create_manual_transfer` returns has
distinct account ids; `create_transfer_with_learning` enforces nothing. -/
theorem C3_creation_path_account_sign_guarantees (accts : AccountTypes)
    (transactions : List Transaction) (from_tx to_tx : Transaction) :
    ((detect_potential_transfers_enhanced accts transactions).auto_matched.all
      (fun m =>
        decide (m.fromTx.amount < 0) && decide (0 < m.toTx.amount) &&
        decide ((create_transfer_from_transactions m.fromTx m.toTx).from_account_id ≠
          (create_transfer_from_transactions m.fromTx m.toTx).to_account_id) &&
        (create_transfer_from_transactions m.fromTx m.toTx).from_account_id.isSome &&
        (create_transfer_from_transactions m.fromTx m.toTx).to_account_id.isSome) =
      true) ∧
    ((create_manual_transfer from_tx to_tx).toOption.all
      (fun tr => decide (tr.from_account_id ≠ tr.to_account_id)) = true) := by
  constructor
  · rw [List.all_eq_true]
    intro m hm
    obtain ⟨_, hneg, hpos, hfs, hts, hne⟩ := detectLoop_auto_facts accts transactions [] m hm
    simp only [create_transfer_from_transactions, Bool.and_eq_true, decide_eq_true_eq,
      Option.isSome_iff_ne_none]
    exact ⟨⟨⟨⟨hneg, hpos⟩, hne⟩, hfs⟩, hts⟩
  · unfold create_manual_transfer
    by_cases heq : from_tx.account_id = to_tx.account_id
    · rw [if_pos heq]
      rfl
    · rw [if_neg heq]
      by_cases htr : (from_tx.is_transfer || to_tx.is_transfer) = true
      · rw [if_pos htr]
        rfl
      · rw [if_neg htr]
        by_cases hsw : 0 < from_tx.amount ∧ to_tx.amount < 0
        · rw [if_pos hsw]
          simp only [Except.toOption, Option.all_some, create_transfer_from_transactions,
            decide_eq_true_eq]
          exact fun h => heq h.symm
        · rw [if_neg hsw]
          simp only [Except.toOption, Option.all_some, create_transfer_from_transactions,
            decide_eq_true_eq]
          exact heq

/-!
### Claim C4 — atomic marking of both linked transactions

`_create_transfer_from_transactions` adds the Transfer row and sets both
transactions' `is_transfer = True` before a single `commit()`; on failure
the surrounding `except` rolls everything back.  `create_transfer_with_learning`,
however, commits the Transfer row without ever touching either
transaction's `is_transfer` flag, so "every operation that creates a
Transfer marks both linked transactions" is false; "exactly one marked" is
still unreachable on every path.
-/

/-- Mutable state visible to a transfer-creation call: the transfer table
and the two transactions' `is_transfer` flags. -/
structure TransferCreationState where
  transfers : List Transfer
  from_marked : Bool
  to_marked : Bool
deriving DecidableEq, Repr

/-- `_create_transfer_from_transactions` as a state transition: the
Transfer insert and both `is_transfer := true` marks happen in one session
commit; a failed commit rolls all three back (`except: db.rollback()`). -/
def create_transfer_from_transactions_step (s : TransferCreationState)
    (from_tx to_tx : Transaction) (commit_succeeds : Bool) : TransferCreationState :=
  if commit_succeeds then
    { transfers := s.transfers ++ [create_transfer_from_transactions from_tx to_tx]
      from_marked := true
      to_marked := true }
  else s

/-- `create_transfer_with_learning` as a state transition: the commit adds
the Transfer row but the function never sets either transaction's
`is_transfer` flag; a failed commit rolls back. -/
def create_transfer_with_learning_step (s : TransferCreationState)
    (from_tx to_tx : Transaction) (description : Option (List Char))
    (commit_succeeds : Bool) : TransferCreationState :=
  if commit_succeeds then
    { transfers := s.transfers ++ [create_transfer_with_learning from_tx to_tx description]
      from_marked := s.from_marked
      to_marked := s.to_marked }
  else s

/-- C4 counterexample: a successful `create_transfer_with_learning` run
creates the Transfer yet leaves both transactions unmarked — the operation
does not mark the linked transactions at all. -/
theorem C4_counterexample_with_learning_marks_neither :
    (create_transfer_with_learning_step ⟨[], false, false⟩
        { id := 1, date := 0, amount := -5, description := "t".toList, account_id := some 1 }
        { id := 2, date := 0, amount := 5, description := "t".toList, account_id := some 2 }
        none true).transfers.length = 1 ∧
    (create_transfer_with_learning_step ⟨[], false, false⟩
        { id := 1, date := 0, amount := -5, description := "t".toList, account_id := some 1 }
        { id := 2, date := 0, amount := 5, description := "t".toList, account_id := some 2 }
        none true).from_marked = false ∧
    (create_transfer_with_learning_step ⟨[], false, false⟩
        { id := 1, date := 0, amount := -5, description := "t".toList, account_id := some 1 }
        { id := 2, date := 0, amount := 5, description := "t".toList, account_id := some 2 }
        none true).to_marked = false := by decide

/-- C4 (amended): starting from an unmarked pair, the auto-detection
creation path is atomic — after success both transactions are marked and
the Transfer exists, after a simulated commit failure the state is exactly
the initial one — and a state with exactly one marked transaction is
unreachable; `create_transfer_with_learning` creates the Transfer row
while marking neither transaction (so also never exactly one). -/
theorem C4_transfer_creation_marking_atomic (s : TransferCreationState)
    (from_tx to_tx : Transaction) (description : Option (List Char)) (flag : Bool)
    (h1 : s.from_marked = false) (h2 : s.to_marked = false) :
    ((create_transfer_from_transactions_step s from_tx to_tx flag).from_marked =
        (create_transfer_from_transactions_step s from_tx to_tx flag).to_marked ∧
      (flag = true →
        (create_transfer_from_transactions_step s from_tx to_tx flag).from_marked = true ∧
        (create_transfer_from_transactions_step s from_tx to_tx flag).transfers =
          s.transfers ++ [create_transfer_from_transactions from_tx to_tx]) ∧
      (flag = false → create_transfer_from_transactions_step s from_tx to_tx flag = s)) ∧
    ((create_transfer_with_learning_step s from_tx to_tx description flag).from_marked = false ∧
      (create_transfer_with_learning_step s from_tx to_tx description flag).to_marked = false) := by
  cases flag <;>
    simp [create_transfer_from_transactions_step, create_transfer_with_learning_step, h1, h2]

/-- Witness for C4 at a concrete unmarked initial state. -/
theorem C4_witness :
    (⟨[], false, false⟩ : TransferCreationState).from_marked = false ∧
    (⟨[], false, false⟩ : TransferCreationState).to_marked = false ∧
    ((create_transfer_from_transactions_step ⟨[], false, false⟩
        { id := 1, date := 0, amount := -5, description := "t".toList, account_id := some 1 }
        { id := 2, date := 0, amount := 5, description := "t".toList, account_id := some 2 }
        true).from_marked =
      (create_transfer_from_transactions_step ⟨[], false, false⟩
        { id := 1, date := 0, amount := -5, description := "t".toList, account_id := some 1 }
        { id := 2, date := 0, amount := 5, description := "t".toList, account_id := some 2 }
        true).to_marked) :=
  ⟨rfl, rfl,
    (C4_transfer_creation_marking_atomic ⟨[], false, false⟩
      { id := 1, date := 0, amount := -5, description := "t".toList, account_id := some 1 }
      { id := 2, date := 0, amount := 5, description := "t".toList, account_id := some 2 }
      none true rfl rfl).1.1⟩

/-!
### Claim C9 — TransferPattern removal

False: `TransferLearningService.delete_pattern` calls `db.delete(pattern)`
followed by `commit()` — a hard delete.  After a successful removal the
record no longer exists in the store at all (rather than surviving with
`is_active = false`).
-/

/-- `delete_pattern(pattern_id)`: look the pattern up; if absent return
`False`; otherwise hard-delete the row and return `True`. -/
def delete_pattern (patterns : List TransferPattern) (pattern_id : ℕ) :
    List TransferPattern × Bool :=
  match patterns.find? fun p => p.id = pattern_id with
  | none => (patterns, false)
  | some _ => (patterns.filter fun p => p.id ≠ pattern_id, true)

/-- C9 counterexample: deleting an existing active pattern removes the
record from the store entirely; no record with that id (deactivated or
not) remains. -/
theorem C9_counterexample_hard_delete :
    (delete_pattern
        [{ id := 1, pattern_name := "A → B".toList, from_account_pattern := [],
           to_account_pattern := [], description_pattern := [],
           typical_amount := some 500, is_active := true }] 1).2 = true ∧
    ((delete_pattern
        [{ id := 1, pattern_name := "A → B".toList, from_account_pattern := [],
           to_account_pattern := [], description_pattern := [],
           typical_amount := some 500, is_active := true }] 1).1.find?
      fun p => p.id = 1) = none := by decide

/-- C9 (amended): removing an existing TransferPattern hard-deletes it:
the call returns `true`, afterwards no record with that id exists in the
store, and every other pattern survives unchanged. -/
theorem C9_delete_pattern_removes_record (patterns : List TransferPattern)
    (pattern_id : ℕ)
    (h : (patterns.find? fun p => p.id = pattern_id).isSome = true) :
    (delete_pattern patterns pattern_id).2 = true ∧
      ((delete_pattern patterns pattern_id).1.find? fun p => p.id = pattern_id) = none ∧
      (delete_pattern patterns pattern_id).1 =
        patterns.filter fun p => p.id ≠ pattern_id := by
  unfold delete_pattern
  cases hf : patterns.find? fun p => p.id = pattern_id with
  | none => rw [hf] at h; simp at h
  | some p =>
    refine ⟨rfl, ?_, rfl⟩
    rw [List.find?_eq_none]
    intro q hq
    have := (List.mem_filter.mp hq).2
    simpa using this

/-- Witness for C9 at a concrete one-pattern store. -/
theorem C9_witness :
    (([{ id := 1, pattern_name := "A → B".toList, from_account_pattern := [],
         to_account_pattern := [], description_pattern := [],
         typical_amount := some 500, is_active := true }] :
        List TransferPattern).find? fun p => p.id = 1).isSome = true ∧
    (delete_pattern
        [{ id := 1, pattern_name := "A → B".toList, from_account_pattern := [],
           to_account_pattern := [], description_pattern := [],
           typical_amount := some 500, is_active := true }] 1).2 = true :=
  ⟨by decide,
    (C9_delete_pattern_removes_record
      [{ id := 1, pattern_name := "A → B".toList, from_account_pattern := [],
         to_account_pattern := [], description_pattern := [],
         typical_amount := some 500, is_active := true }] 1 (by decide)).1⟩

/-! ## Transfer Pattern Learner scoring (`transfer_learning.py`:
`_match_description_pattern`, `_calculate_pattern_confidence`) -/

/-- Python `str.split(",")` (keeps empty fields). -/
def splitOnComma : List Char → List (List Char)
  | [] => [[]]
  | c :: cs =>
    if c = ',' then [] :: splitOnComma cs
    else
      match splitOnComma cs with
      | [] => [[c]]
      | t :: ts => (c :: t) :: ts

/-- `_match_description_pattern`: `keywords:`/`prefix:` patterns match by
containment in either lowered description (1.0 / 0.0), anything else is
the neutral 0.5. -/
def match_description_pattern (pattern : List Char)
    (desc1 desc2 : Option (List Char)) : ℚ :=
  if pattern = [] then 0.5
  else
    let descriptions := [desc1.getD [], desc2.getD []]
    if List.isPrefixOf "keywords:".toList pattern then
      let keywords := splitOnComma ((pattern.dropWhile (· != ':')).drop 1)
      if descriptions.any fun d => keywords.any fun k => isSubstring k (d.map toLowerChar)
      then 1 else 0
    else if List.isPrefixOf "prefix:".toList pattern then
      let pre := (pattern.dropWhile (· != ':')).drop 1
      if descriptions.any fun d => isSubstring pre (d.map toLowerChar)
      then 1 else 0
    else 0.5

/-- Amount block of `_calculate_pattern_confidence` (40% of the score);
`if pattern.typical_amount:` is Python truthiness, false for `None` and
for zero. -/
def pattern_amount_score (p : TransferPattern) (from_amount : ℚ) : ℚ :=
  match p.typical_amount with
  | some t =>
    if t ≠ 0 then
      let amount_diff := |(|from_amount| - t)|
      let max_diff := t * p.amount_tolerance
      if amount_diff = 0 then 0.4
      else if amount_diff ≤ max_diff then 0.4 * (1 - amount_diff / max_diff)
      else 0.1
    else 0
  | none => 0

/-- Date block of `_calculate_pattern_confidence` (30%). -/
def pattern_date_score (p : TransferPattern) (date_diff : ℕ) : ℚ :=
  if date_diff = 0 then 0.3
  else if (date_diff : ℤ) ≤ p.max_days_between then
    0.3 * (1 - (date_diff : ℚ) / ((p.max_days_between : ℤ) : ℚ))
  else 0

/-- Description block of `_calculate_pattern_confidence` (20%);
`if pattern.description_pattern:` is false for the empty string. -/
def pattern_desc_score (p : TransferPattern) (d1 d2 : List Char) : ℚ :=
  if p.description_pattern ≠ [] then
    0.2 * match_description_pattern p.description_pattern (some d1) (some d2)
  else 0

/-- Historical-success block of `_calculate_pattern_confidence` (10%). -/
def pattern_history_score (p : TransferPattern) : ℚ :=
  if 0 < p.times_matched then 0.1 * min ((p.times_matched : ℚ) / 10) 1 else 0

/-- `_calculate_pattern_confidence`: the sequential `confidence += …`
blocks, capped by the final `min(confidence, 1.0)`. -/
def calculate_pattern_confidence (p : TransferPattern)
    (from_tx to_tx : Transaction) : ℚ :=
  min (pattern_amount_score p from_tx.amount +
       pattern_date_score p ((from_tx.date - to_tx.date)).natAbs +
       pattern_desc_score p from_tx.description to_tx.description +
       pattern_history_score p) 1

/-! ### Non-negativity of the pattern-confidence blocks -/

theorem match_description_pattern_bounds (pattern : List Char)
    (d1 d2 : Option (List Char)) :
    0 ≤ match_description_pattern pattern d1 d2 ∧
      match_description_pattern pattern d1 d2 ≤ 1 := by
  refine ⟨?_, ?_⟩ <;>
  · unfold match_description_pattern
    split_ifs <;> try norm_num
    all_goals split <;> norm_num

theorem pattern_amount_score_nonneg (p : TransferPattern) (a : ℚ) :
    0 ≤ pattern_amount_score p a := by
  unfold pattern_amount_score
  cases p.typical_amount with
  | none => simp
  | some t =>
    simp only
    split_ifs with ht hz hle
    · norm_num
    · have habs : (0 : ℚ) ≤ |(|a| - t)| := abs_nonneg _
      have hpos : (0 : ℚ) < |(|a| - t)| := lt_of_le_of_ne habs (Ne.symm hz)
      have hmpos : (0 : ℚ) < t * p.amount_tolerance := lt_of_lt_of_le hpos hle
      have hratio : |(|a| - t)| / (t * p.amount_tolerance) ≤ 1 :=
        (div_le_one hmpos).mpr hle
      nlinarith
    · norm_num
    · exact le_refl 0

theorem pattern_date_score_nonneg (p : TransferPattern) (d : ℕ) :
    0 ≤ pattern_date_score p d := by
  unfold pattern_date_score
  split_ifs with h0 hle
  · norm_num
  · have hd1 : 1 ≤ d := Nat.one_le_iff_ne_zero.mpr h0
    have hmd : (1 : ℤ) ≤ p.max_days_between := le_trans (by exact_mod_cast hd1) hle
    have hmdq : (0 : ℚ) < ((p.max_days_between : ℤ) : ℚ) := by exact_mod_cast hmd
    have hdle : ((d : ℚ)) ≤ ((p.max_days_between : ℤ) : ℚ) := by exact_mod_cast hle
    have hratio : (d : ℚ) / ((p.max_days_between : ℤ) : ℚ) ≤ 1 :=
      (div_le_one hmdq).mpr hdle
    nlinarith
  · exact le_refl 0

theorem pattern_desc_score_nonneg (p : TransferPattern) (d1 d2 : List Char) :
    0 ≤ pattern_desc_score p d1 d2 := by
  unfold pattern_desc_score
  split_ifs
  · have := (match_description_pattern_bounds p.description_pattern (some d1) (some d2)).1
    nlinarith
  · exact le_refl 0

theorem pattern_history_score_nonneg (p : TransferPattern) :
    0 ≤ pattern_history_score p := by
  unfold pattern_history_score
  split_ifs
  · have h1 : (0 : ℚ) ≤ (p.times_matched : ℚ) / 10 := by positivity
    have h2 : (0 : ℚ) ≤ min ((p.times_matched : ℚ) / 10) 1 :=
      le_min h1 (by norm_num)
    nlinarith
  · exact le_refl 0

/-!
### Claim C5 — all engine confidence scores lie in [0, 1]
-/

/-- C5: the transfer-pair confidence, the transfer-pattern match
confidence, and the n-gram confidence all lie within `[0, 1]` for every
input (zero amounts, identical dates, and empty or degenerate
descriptions included). -/
theorem C5_confidence_scores_in_unit_interval :
    (∀ (accts : AccountTypes) (tx1 tx2 : Transaction),
      0 ≤ calculate_confidence accts tx1 tx2 ∧
        calculate_confidence accts tx1 tx2 ≤ 1) ∧
    (∀ (p : TransferPattern) (from_tx to_tx : Transaction),
      0 ≤ calculate_pattern_confidence p from_tx to_tx ∧
        calculate_pattern_confidence p from_tx to_tx ≤ 1) ∧
    (∀ (words : List (List Char)) (position : ℕ),
      0 ≤ calculate_ngram_confidence words position ∧
        calculate_ngram_confidence words position ≤ 1) := by
  refine ⟨?_, ?_, ?_⟩
  · intro accts tx1 tx2
    unfold calculate_confidence
    exact ⟨le_max_left _ _, max_le (by norm_num) (min_le_right _ _)⟩
  · intro p from_tx to_tx
    unfold calculate_pattern_confidence
    constructor
    · refine le_min ?_ (by norm_num)
      have h1 := pattern_amount_score_nonneg p from_tx.amount
      have h2 := pattern_date_score_nonneg p ((from_tx.date - to_tx.date)).natAbs
      have h3 := pattern_desc_score_nonneg p from_tx.description to_tx.description
      have h4 := pattern_history_score_nonneg p
      linarith
    · exact min_le_right _ _
  · intro words position
    unfold calculate_ngram_confidence
    exact ⟨le_max_left _ _, max_le (by norm_num) (min_le_left _ _)⟩

/-! ## Categorization Matcher and Pattern Learner (`categorization.py`) -/

/-- The `manual_review_patterns` list of `is_manual_review_pattern`. -/
def manualReviewPatterns : List (List Char) :=
  ["twint".toList, "atm".toList, "cash withdrawal".toList, "geldautomat".toList,
   "bancomat".toList, "transfer".toList, "überweisung".toList, "virement".toList,
   "payment order".toList, "standing order".toList, "dauerauftrag".toList,
   "ordre permanent".toList]

/-- `is_manual_review_pattern`. -/
def is_manual_review_pattern (description : List Char) : Bool :=
  let dl := description.map toLowerChar
  manualReviewPatterns.any fun p => isSubstring p dl

/-- The `category_mapping` dict of `_get_manual_review_category`, in
insertion order. -/
def categoryMapping : List (List Char × List Char) :=
  [("twint".toList, "TWINT Payments".toList),
   ("atm".toList, "ATM Withdrawals".toList),
   ("geldautomat".toList, "ATM Withdrawals".toList),
   ("bancomat".toList, "ATM Withdrawals".toList),
   ("transfer".toList, "Bank Transfers".toList),
   ("überweisung".toList, "Bank Transfers".toList),
   ("virement".toList, "Bank Transfers".toList)]

/-- Loop of `_get_manual_review_category`: first mapping entry whose
keyword occurs in the lowered description *and* whose MANUAL_REVIEW
category exists wins; otherwise fall back to the `'Unknown Vendors'`
MANUAL_REVIEW category. -/
def get_manual_review_category_go (cats : List Category) (dl : List Char) :
    List (List Char × List Char) → Option Category
  | [] => cats.find? fun c =>
      decide (c.category_type = CategoryType.manual_review) &&
        decide (c.name = "Unknown Vendors".toList)
  | (pat, catName) :: rest =>
    if isSubstring pat dl then
      match cats.find? fun c =>
          decide (c.category_type = CategoryType.manual_review) &&
            decide (c.name = catName) with
      | some c => some c
      | none => get_manual_review_category_go cats dl rest
    else get_manual_review_category_go cats dl rest

/-- `_get_manual_review_category`. -/
def get_manual_review_category (cats : List Category) (description : List Char) :
    Option Category :=
  get_manual_review_category_go cats (description.map toLowerChar) categoryMapping

/-- Inner pattern loop of `_match_vendor_pattern` for one vendor: exact
pattern equality returns `(vendor, 1.0)` from the whole function
(`Sum.inl`), otherwise the best fuzzy score meeting the vendor's own
threshold is accumulated (`Sum.inr`). -/
def matchPats (sim : Sim) (norm : List Char) (v : Vendor) :
    List (List Char) → (Option Vendor × ℚ) → (Option Vendor × ℚ) ⊕ (Option Vendor × ℚ)
  | [], acc => Sum.inr acc
  | pat :: rest, acc =>
    if pat = norm then Sum.inl (some v, 1)
    else
      let acc' :=
        if 2 < pat.length ∧ 2 < norm.length then
          let s := sim pat norm
          if acc.2 < s ∧ v.confidence_threshold ≤ s then (some v, s) else acc
        else acc
      matchPats sim norm v rest acc'

/-- Outer vendor loop of `_match_vendor_pattern` (vendors without
patterns are skipped). -/
def matchVendors (sim : Sim) (norm : List Char) :
    List Vendor → (Option Vendor × ℚ) → Option Vendor × ℚ
  | [], acc => acc
  | v :: rest, acc =>
    if v.patterns = [] then matchVendors sim norm rest acc
    else
      match matchPats sim norm v v.patterns acc with
      | Sum.inl final => final
      | Sum.inr acc' => matchVendors sim norm rest acc'

/-- `_match_vendor_pattern`: extract and normalize the description, then
scan the learning-enabled vendors. -/
def match_vendor_pattern (sim : Sim) (vendors : List Vendor)
    (description : List Char) : Option Vendor × ℚ :=
  let normalized := normalize_vendor (extract_vendor_from_description description)
  matchVendors sim normalized (vendors.filter (·.allow_auto_learning)) (none, 0)

/-- Generic-matcher part of one `categorize_new_transactions` iteration
(the code after the manual-review pre-check). -/
def categorize_match_step (sim : Sim) (cats : List Category) (vendors : List Vendor)
    (confidence_threshold : ℚ) (t : Transaction) : Transaction :=
  match match_vendor_pattern sim vendors t.description with
  | (some v, conf) =>
    if confidence_threshold ≤ conf then
      match v.default_category_id.bind fun cid => cats.find? fun c => c.id = cid with
      | some dc =>
        if v.allow_auto_learning && dc.allow_auto_learning then
          { t with vendor_id := some v.id, category_id := v.default_category_id,
                   confidence_score := some conf, needs_review := false }
        else
          { t with vendor_id := some v.id, confidence_score := some conf,
                   needs_review := true }
      | none =>
        { t with vendor_id := some v.id, confidence_score := some conf,
                 needs_review := true }
    else { t with confidence_score := some conf, needs_review := true }
  | (none, _) => { t with confidence_score := some 0, needs_review := true }

/-- One iteration of `categorize_new_transactions` (the query selects only
uncategorized transactions, so categorized ones pass through untouched):
manual-review keyword pre-check first, generic matcher second. -/
def categorize_transaction_step (sim : Sim) (cats : List Category)
    (vendors : List Vendor) (confidence_threshold : ℚ) (t : Transaction) :
    Transaction :=
  if t.category_id ≠ none then t
  else if is_manual_review_pattern t.description then
    match get_manual_review_category cats t.description with
    | some cat =>
      { t with category_id := some cat.id, needs_review := true,
               confidence_score := some 0.5 }
    | none => categorize_match_step sim cats vendors confidence_threshold t
  else categorize_match_step sim cats vendors confidence_threshold t

/-- `categorize_new_transactions` over the user's transactions. -/
def categorize_new_transactions (sim : Sim) (cats : List Category)
    (vendors : List Vendor) (confidence_threshold : ℚ)
    (txs : List Transaction) : List Transaction :=
  txs.map (categorize_transaction_step sim cats vendors confidence_threshold)

/-!
### Claim C6 — manual-review keyword pre-check

The pre-check runs before the generic matcher and assigns the mapped
MANUAL_REVIEW category with confidence 0.5 and needs-review set — but only
when such a category exists in the store: `_get_manual_review_category`
returning `None` (no keyword category, no `'Unknown Vendors'` fallback)
makes the transaction fall through to vendor pattern matching, so the
claim's unconditional "bypassed entirely" is false.
-/

/-- C6 counterexample: with no MANUAL_REVIEW category in the store, a
transaction whose description matches the `twint` keyword class is *not*
routed to manual review: the generic matcher runs and auto-assigns a
vendor with confidence 1.0 and needs-review cleared. -/
theorem C6_counterexample_no_manual_review_category :
    is_manual_review_pattern "TWINT Payment, Migros Bahnhofstrasse".toList = true ∧
    categorize_transaction_step (fun _ _ => 0)
        [{ id := 2, name := "Food".toList, category_type := CategoryType.expense,
           allow_auto_learning := true }]
        [{ id := 5, name := "Migros".toList,
           patterns := ["MIGROSBAHNHOFSTRASSE".toList],
           default_category_id := some 2, confidence_threshold := 0.8,
           allow_auto_learning := true }]
        0.8
        { id := 1, date := 0, amount := -20,
          description := "TWINT Payment, Migros Bahnhofstrasse".toList } =
      { id := 1, date := 0, amount := -20,
        description := "TWINT Payment, Migros Bahnhofstrasse".toList,
        vendor_id := some 5, category_id := some 2,
        confidence_score := some 1, needs_review := false } := by decide

/-- C6 (amended): for an uncategorized transaction whose description
matches a manual-review keyword class, *provided the store resolves a
manual-review category for it* (the keyword-mapped category or the
`'Unknown Vendors'` fallback), the run assigns exactly that category with
confidence fixed at 0.5 and needs-review set, independently of the vendor
store and the similarity oracle — the generic matcher is bypassed. -/
theorem C6_manual_review_precheck_with_category (sim : Sim)
    (cats : List Category) (vendors : List Vendor) (thr : ℚ)
    (t : Transaction) (cat : Category)
    (h0 : t.category_id = none)
    (h1 : is_manual_review_pattern t.description = true)
    (h2 : get_manual_review_category cats t.description = some cat) :
    categorize_transaction_step sim cats vendors thr t =
      { t with category_id := some cat.id, needs_review := true,
               confidence_score := some 0.5 } := by
  unfold categorize_transaction_step
  rw [if_neg (by simp [h0]), if_pos h1, h2]

/-- Witness for C6 at a concrete TWINT transaction and store. -/
theorem C6_witness :
    ({ id := 1, date := 0, amount := -20,
        description := "TWINT Payment, Migros".toList : Transaction }).category_id =
        none ∧
    is_manual_review_pattern "TWINT Payment, Migros".toList = true ∧
    get_manual_review_category
        [{ id := 7, name := "TWINT Payments".toList,
           category_type := CategoryType.manual_review,
           allow_auto_learning := false }]
        "TWINT Payment, Migros".toList =
      some { id := 7, name := "TWINT Payments".toList,
             category_type := CategoryType.manual_review,
             allow_auto_learning := false } ∧
    categorize_transaction_step (fun _ _ => 0)
        [{ id := 7, name := "TWINT Payments".toList,
           category_type := CategoryType.manual_review,
           allow_auto_learning := false }] [] 0.8
        { id := 1, date := 0, amount := -20,
          description := "TWINT Payment, Migros".toList } =
      { id := 1, date := 0, amount := -20,
        description := "TWINT Payment, Migros".toList,
        category_id := some 7, needs_review := true,
        confidence_score := some 0.5 } :=
  ⟨rfl, by decide, by decide,
    C6_manual_review_precheck_with_category (fun _ _ => 0)
      [{ id := 7, name := "TWINT Payments".toList,
         category_type := CategoryType.manual_review,
         allow_auto_learning := false }] [] 0.8
      { id := 1, date := 0, amount := -20,
        description := "TWINT Payment, Migros".toList }
      { id := 7, name := "TWINT Payments".toList,
        category_type := CategoryType.manual_review,
        allow_auto_learning := false }
      rfl (by decide) (by decide)⟩

/-! ## Pattern Learner (categorization side, `categorization.py`:
`_create_or_update_vendor_pattern`, `_find_similar_vendor_transactions`,
`categorize_transaction_and_learn`) -/

/-- `_create_or_update_vendor_pattern`: pattern fallback for short
patterns, then exact-pattern vendor, then vendor-by-name, else a fresh
vendor with threshold 0.85 and learning enabled.  Returns the updated
vendor table and the touched vendor. -/
def create_or_update_vendor_pattern (vendors : List Vendor)
    (vendor_name normalized_pattern : List Char) (category_id : ℕ)
    (fresh_id : ℕ) : List Vendor × Vendor :=
  let pattern :=
    if normalized_pattern.length < 2 then
      ((vendor_name.map toUpperChar).filter fun c => c != ' ').take 10
    else normalized_pattern
  match vendors.find? fun v => v.allow_auto_learning && v.patterns.contains pattern with
  | some v =>
    let v' := { v with default_category_id := some category_id }
    (vendors.map fun w => if w.id = v.id then v' else w, v')
  | none =>
    match vendors.find? fun v => v.allow_auto_learning && decide (v.name = vendor_name) with
    | some v =>
      let v' := { v with
        patterns := if v.patterns.contains pattern then v.patterns
                    else v.patterns ++ [pattern]
        default_category_id := some category_id }
      (vendors.map fun w => if w.id = v.id then v' else w, v')
    | none =>
      let nv : Vendor :=
        { id := fresh_id, name := vendor_name, patterns := [pattern],
          default_category_id := some category_id, confidence_threshold := 0.85,
          allow_auto_learning := true }
      (vendors ++ [nv], nv)

/-- `_find_similar_vendor_transactions`: every other transaction whose
normalized vendor pattern is exactly equal, or ≥ 0.9 fuzzy-similar (both
sides longer than 2). -/
def find_similar_vendor_transactions (sim : Sim) (txs : List Transaction)
    (normalized_pattern : List Char) (exclude_id : ℕ) : List Transaction :=
  (txs.filter fun t => t.id ≠ exclude_id).filter fun t =>
    let tx_norm := normalize_vendor (extract_vendor_from_description t.description)
    decide (tx_norm = normalized_pattern) ||
      (decide (2 < tx_norm.length) && decide (2 < normalized_pattern.length) &&
        decide ((0.9 : ℚ) ≤ sim tx_norm normalized_pattern))

/-- The engine-visible store of one user. -/
structure CatStore where
  transactions : List Transaction
  categories : List Category
  vendors : List Vendor
deriving DecidableEq, Repr

/-- Result of `categorize_transaction_and_learn` (store plus the returned
dict's engine-relevant entries). -/
structure LearnResult where
  store : CatStore
  vendor_created : Option (List Char)
  similar_transactions_categorized : ℕ
  pattern_learned : Option (List Char)
  learning_enabled : Bool
deriving DecidableEq, Repr

/-- `categorize_transaction_and_learn`: looks up the transaction and the
*target* category; learns (vendor create/update plus similarity sweep)
whenever the target category allows learning and is not MANUAL_REVIEW —
the transaction's *prior* category is never consulted — then overwrites
the original transaction with confidence 1.0 and needs-review cleared. -/
def categorize_transaction_and_learn (sim : Sim) (store : CatStore)
    (transaction_id category_id : ℕ) (vendor_name : Option (List Char))
    (fresh_vendor_id : ℕ) : Except (List Char) LearnResult :=
  match store.transactions.find? fun t => t.id = transaction_id with
  | none => Except.error "Transaction not found".toList
  | some tx =>
    match store.categories.find? fun c => c.id = category_id with
    | none => Except.error "Category not found".toList
    | some cat =>
      let vendor_text := extract_vendor_from_description tx.description
      let normalized_vendor := normalize_vendor vendor_text
      if cat.allow_auto_learning && decide (cat.category_type ≠ CategoryType.manual_review) then
        let vres := create_or_update_vendor_pattern store.vendors
          (vendor_name.getD (generate_vendor_name vendor_text)) normalized_vendor
          category_id fresh_vendor_id
        let similar_ids : List ℕ :=
          ((find_similar_vendor_transactions sim store.transactions
            normalized_vendor tx.id).filter fun t => t.category_id = none).map
            fun t => t.id
        let txs₁ := store.transactions.map fun t =>
          if t.id ∈ similar_ids then
            { t with vendor_id := some vres.2.id, category_id := some category_id,
                     confidence_score := some 0.95, needs_review := false }
          else t
        let txs₂ := txs₁.map fun t =>
          if t.id = tx.id then
            { t with vendor_id := some vres.2.id, category_id := some category_id,
                     needs_review := false, confidence_score := some 1 }
          else t
        Except.ok
          { store := { transactions := txs₂, categories := store.categories,
                       vendors := vres.1 }
            vendor_created := some vres.2.name
            similar_transactions_categorized := similar_ids.length
            pattern_learned := some normalized_vendor
            learning_enabled := true }
      else
        let txs₂ := store.transactions.map fun t =>
          if t.id = tx.id then
            { t with category_id := some category_id, needs_review := false,
                     confidence_score := some 1 }
          else t
        Except.ok
          { store := { store with transactions := txs₂ }
            vendor_created := none
            similar_transactions_categorized := 0
            pattern_learned :=
              if cat.allow_auto_learning then some normalized_vendor else none
            learning_enabled := cat.allow_auto_learning }

/-!
### Claim C1 — no learning when the prior category was MANUAL_REVIEW

The code checks only the *target* category
(`category.allow_auto_learning and category.category_type != MANUAL_REVIEW`)
and never inspects the transaction's prior category, although the
repository's own test script (`test_manual_review_learning.py`) documents
"categorize_transaction_and_learn() now checks previous category; if
previous category is MANUAL_REVIEW type, learning is disabled".  Moving a
transaction out of a MANUAL_REVIEW bucket into a learning-enabled EXPENSE
category therefore creates a Vendor pattern.
-/

/-- C1: at the failing input — a transaction currently in the
MANUAL_REVIEW-typed `'TWINT Payments'` category, re-categorized to the
learning-enabled EXPENSE category `'Food'` — the code creates a Vendor
(learning happens), contradicting the claim's "no Vendor record is created
or mutated". -/
theorem C1_code_bug_prior_manual_review_still_learns :
    (([{ id := 1, name := "TWINT Payments".toList,
          category_type := CategoryType.manual_review, allow_auto_learning := false },
        { id := 2, name := "Food".toList, category_type := CategoryType.expense,
          allow_auto_learning := true }] : List Category).find? fun c =>
        some c.id = (({ id := 1, date := 0, amount := -20,
                        description := "TWINT Payment, Migros Bahnhofstrasse".toList,
                        category_id := some 1,
                        needs_review := true } : Transaction)).category_id).map
        Category.category_type = some CategoryType.manual_review ∧
    ((categorize_transaction_and_learn (fun _ _ => 0)
        { transactions := [{ id := 1, date := 0, amount := -20,
                               description := "TWINT Payment, Migros Bahnhofstrasse".toList,
                               category_id := some 1, needs_review := true }]
          categories := [{ id := 1, name := "TWINT Payments".toList,
                           category_type := CategoryType.manual_review,
                           allow_auto_learning := false },
                         { id := 2, name := "Food".toList,
                           category_type := CategoryType.expense,
                           allow_auto_learning := true }]
          vendors := [] } 1 2 none 10).toOption.map fun r =>
        (r.store.vendors.map Vendor.name, r.vendor_created, r.pattern_learned,
          r.learning_enabled)) =
      some (["Migros Bahnhofstrasse".toList], some "Migros Bahnhofstrasse".toList,
        some "MIGROSBAHNHOFSTRASSE".toList, true) := by decide

end BudgetLens
